import Mathlib

/-!
Shallow embedding of the e-commerce backend (src/app): the in-memory store
(`app/database.py`), the Pydantic schema validation (`app/models.py`) and the
service layer (`app/services/*.py`), together with proofs of the spec claims.

Modelling conventions:
* Python dicts keyed by generated id and iterated in insertion order are
  embedded as Lean lists of stored records carrying their id field (`_id`).
* Python floats for `price` / `total` are embedded as `Rat`; `round(v, 2)`
  is embedded as exact round-half-to-even on rationals (see `round2`).
* `datetime.utcnow()` is abstracted by a logical clock in the store state;
  only presence and the assignment point of `created_at` matter to the spec.
* Exceptions (`ValueError`, pydantic validation errors) are embedded as
  `Except String`.
-/

namespace ECom

/-- A stored product record: the dict held in `InMemoryDatabase.products`,
with its `_id` key inlined as the `id` field. -/
structure StoredProduct where
  id : String
  name : String
  description : String
  price : Rat
  size : String
deriving DecidableEq, Repr

/-- A stored order record: the dict held in `InMemoryDatabase.orders`,
with its `_id` key inlined as the `id` field. -/
structure StoredOrder where
  id : String
  user_id : String
  products : List String
  total : Rat
  created_at : Nat
deriving DecidableEq, Repr

/-- State of `InMemoryDatabase` (`src/app/database.py`): two insertion-ordered
collections and a per-collection counter, plus the abstract wall clock used
for `created_at` stamps. -/
structure DB where
  products : List StoredProduct
  orders : List StoredOrder
  productCounter : Nat
  orderCounter : Nat
  clock : Nat
deriving DecidableEq, Repr

/-- The fresh state built by `InMemoryDatabase.__init__`: empty collections,
both counters at 1. -/
def DB.init : DB :=
  { products := [], orders := [], productCounter := 1, orderCounter := 1, clock := 0 }

/-- Python `f"{n:06d}"`: decimal digits of `n`, left-padded with zeros to
at least 6 characters. -/
def pad6 (n : Nat) : String :=
  let s := toString n
  String.mk (List.replicate (6 - s.length) '0') ++ s

/-- `InMemoryDatabase.generate_id`: `prod_NNNNNN` from the product counter when
`collection == "products"`, otherwise `order_NNNNNN` from the order counter;
the used counter is incremented. -/
def DB.generate_id (db : DB) (collection : String) : String × DB :=
  if collection == "products" then
    ("prod_" ++ pad6 db.productCounter,
      { db with productCounter := db.productCounter + 1 })
  else
    ("order_" ++ pad6 db.orderCounter,
      { db with orderCounter := db.orderCounter + 1 })

/-- Schema-level product creation payload (`ProductCreate` in `app/models.py`);
`parse` below applies its field constraints and validators. -/
structure ProductCreate where
  name : String
  description : String
  price : Rat
  size : String
deriving DecidableEq, Repr

/-- Schema-level order creation payload (`OrderCreate` in `app/models.py`);
`parse` below applies its field constraints and validators. -/
structure OrderCreate where
  user_id : String
  products : List String
  total : Rat
deriving DecidableEq, Repr

/-- `InMemoryDatabase.insert_product`: generate a fresh product id, store the
record under it (insertion order preserved), return the stored record. -/
def DB.insert_product (db : DB) (p : ProductCreate) : StoredProduct × DB :=
  let gen := db.generate_id "products"
  let stored : StoredProduct :=
    { id := gen.1, name := p.name, description := p.description,
      price := p.price, size := p.size }
  (stored, { gen.2 with products := gen.2.products ++ [stored] })

/-- Python string `.lower()` (ASCII case folding suffices for this spec). -/
def lowerStr (s : String) : String :=
  String.mk (s.data.map Char.toLower)

/-- Python `needle in hay` on strings: contiguous-substring test. -/
def containsSub (needle : List Char) : List Char → Bool
  | [] => needle.isEmpty
  | c :: t => needle.isPrefixOf (c :: t) || containsSub needle t

/-- The `# Apply pagination` tail shared verbatim by `find_products` and
`find_orders_by_user`: `xs[start : end]` with `start = offset` and
`end = start + limit if limit else len(xs)`. Python truthiness: `limit = some 0`
is falsy, hence treated like an absent limit. -/
def paginate {α : Type} (xs : List α) (limit : Option Nat) (offset : Nat) : List α :=
  let start := offset
  let stop := match limit with
    | some l => if l == 0 then xs.length else start + l
    | none => xs.length
  (xs.drop start).take (stop - start)

/-- The filtering phase of `InMemoryDatabase.find_products`: list the products
in insertion order, apply the optional name filter (case-insensitive substring
match) then the optional size filter (exact equality). -/
def DB.filtered_products (db : DB) (nameF sizeF : Option String) : List StoredProduct :=
  let products := db.products
  let products := match nameF with
    | some nf => products.filter fun (p : StoredProduct) =>
        containsSub (lowerStr nf).data (lowerStr p.name).data
    | none => products
  let products := match sizeF with
    | some sf => products.filter fun (p : StoredProduct) => p.size == sf
    | none => products
  products

/-- `InMemoryDatabase.find_products`: the filtering phase followed by the
pagination slice. -/
def DB.find_products (db : DB) (nameF sizeF : Option String)
    (limit : Option Nat) (offset : Nat) : List StoredProduct :=
  paginate (db.filtered_products nameF sizeF) limit offset

/-- `InMemoryDatabase.find_product_by_id`: exact key lookup
(`self.products.get(product_id)`). -/
def DB.find_product_by_id (db : DB) (product_id : String) : Option StoredProduct :=
  db.products.find? fun p => p.id == product_id

/-- `InMemoryDatabase.insert_order`: generate a fresh order id, stamp
`created_at` with the current wall clock, store the record, return it. -/
def DB.insert_order (db : DB) (o : OrderCreate) : StoredOrder × DB :=
  let gen := db.generate_id "orders"
  let stored : StoredOrder :=
    { id := gen.1, user_id := o.user_id, products := o.products,
      total := o.total, created_at := gen.2.clock }
  (stored, { gen.2 with orders := gen.2.orders ++ [stored], clock := gen.2.clock + 1 })

/-- `InMemoryDatabase.find_orders_by_user`: filter the orders by exact
`user_id` match, then slice `user_orders[offset : offset + limit]` with the
same Python-truthiness pagination as `find_products`. -/
def DB.find_orders_by_user (db : DB) (user_id : String)
    (limit : Option Nat) (offset : Nat) : List StoredOrder :=
  let user_orders := db.orders.filter fun o => o.user_id == user_id
  paginate user_orders limit offset

/-- Python `round(x, 2)` on the exact rational value: round `100 * x` half to
even, divide by 100. (Python rounds the binary double nearest to the written
decimal; on every value this spec exercises the two agree, since none sits at
an exact half-way tie.) -/
def roundHalfEven (x : Rat) : Int :=
  let f := x.floor
  let frac := x - (f : Rat)
  if frac < (1 : Rat) / 2 then f
  else if (1 : Rat) / 2 < frac then f + 1
  else if f % 2 == 0 then f else f + 1

/-- `round(v, 2)` used by the `price` and `total` validators. -/
def round2 (x : Rat) : Rat :=
  ((roundHalfEven (x * 100) : Int) : Rat) / 100

/-- Hexadecimal digit test used by `bytes.fromhex`. -/
def isHexChar (c : Char) : Bool :=
  (('0' ≤ c) && (c ≤ '9')) || (('a' ≤ c) && (c ≤ 'f')) || (('A' ≤ c) && (c ≤ 'F'))

/-- `bson.ObjectId.is_valid` on a string: a 24-character hex string.
(`bytes.fromhex` also tolerates single ASCII spaces between byte pairs; no
input exercised by the spec or claims contains a space, so that corner is
left out of the model.) -/
def objectIdIsValid (s : String) : Bool :=
  s.length == 24 && s.data.all isHexChar

/-- Pydantic validation of `ProductCreate` (`app/models.py`): field length and
positivity constraints in declaration order, then the `price` validator, which
re-checks positivity and rounds to 2 fractional digits. -/
def ProductCreate.parse (raw : ProductCreate) : Except String ProductCreate :=
  if raw.name.length < 1 then
    .error "name: ensure this value has at least 1 characters"
  else if 200 < raw.name.length then
    .error "name: ensure this value has at most 200 characters"
  else if raw.description.length < 1 then
    .error "description: ensure this value has at least 1 characters"
  else if 1000 < raw.description.length then
    .error "description: ensure this value has at most 1000 characters"
  else if raw.price ≤ 0 then
    .error "Price must be positive"
  else if raw.size.length < 1 then
    .error "size: ensure this value has at least 1 characters"
  else if 50 < raw.size.length then
    .error "size: ensure this value has at most 50 characters"
  else
    .ok { raw with price := round2 raw.price }

/-- Pydantic validation of `OrderCreate` (`app/models.py`): `user_id` length
bounds, `products` min_items, then the `products` validator, which rejects the
first element that is not in valid BSON ObjectId format (before any store
access), then the `total` constraints and rounding. -/
def OrderCreate.parse (raw : OrderCreate) : Except String OrderCreate :=
  if raw.user_id.length < 1 then
    .error "user_id: ensure this value has at least 1 characters"
  else if 100 < raw.user_id.length then
    .error "user_id: ensure this value has at most 100 characters"
  else if raw.products.length < 1 then
    .error "At least one product is required"
  else
    match raw.products.find? (fun pid => !objectIdIsValid pid) with
    | some bad => .error ("Invalid product ID: " ++ bad)
    | none =>
      if raw.total ≤ 0 then .error "Total must be positive"
      else .ok { raw with total := round2 raw.total }

/-! ### Service layer (`app/services/*.py`)

The services wrap the stored dicts in response models named `Product` / `Order`.
Modelled from the spec: those two classes are absent from `src/app/models.py`
(the services import names that are never defined); per the spec's operation
signatures (`create_product(input) -> Product`, `get_order(id) -> Order |
not-found`) the wrapper is the identity on the stored record. -/

/-- `ProductService.create_product`: dump the validated payload and insert it. -/
def ProductService.create_product (db : DB) (p : ProductCreate) : StoredProduct × DB :=
  db.insert_product p

/-- `ProductService.get_product_by_id`: store lookup; `none` maps to not-found. -/
def ProductService.get_product_by_id (db : DB) (product_id : String) :
    Option StoredProduct :=
  db.find_product_by_id product_id

/-- `ProductService.validate_product_ids`: `False` as soon as one id fails to
resolve via `find_product_by_id`, `True` once the loop ends. -/
def ProductService.validate_product_ids (db : DB) (product_ids : List String) : Bool :=
  product_ids.all fun pid => (db.find_product_by_id pid).isSome

/-- `OrderService.create_order`: raise `ValueError` (embedded as
`Except.error`) when `validate_product_ids` fails, before any write; otherwise
delegate to `insert_order`. -/
def OrderService.create_order (db : DB) (o : OrderCreate) :
    Except String (StoredOrder × DB) :=
  if !ProductService.validate_product_ids db o.products then
    .error "One or more products do not exist"
  else
    .ok (db.insert_order o)

/-- `OrderService.get_orders_by_user`: delegate to `find_orders_by_user`. -/
def OrderService.get_orders_by_user (db : DB) (user_id : String)
    (limit : Option Nat) (offset : Nat) : List StoredOrder :=
  db.find_orders_by_user user_id limit offset

/-- Modelled from the spec: `OrderService.get_order_by_id` is called by the
`GET /orders/order/{order_id}` route but defined nowhere in `src/`; the spec
gives `get_order(id) -> Order | not-found` with `find_by_id` an exact key
lookup, so it is modelled as exact lookup in the orders collection. -/
def OrderService.get_order_by_id (db : DB) (order_id : String) : Option StoredOrder :=
  db.orders.find? fun o => o.id == order_id

/-- The `POST /orders` route handler (`app/routers/orders.py`): `ValueError`
from the service maps to HTTP 400 with no write surviving; success maps to 201
with the created order. -/
def routeCreateOrder (db : DB) (o : OrderCreate) : (Nat × Option StoredOrder) × DB :=
  match OrderService.create_order db o with
  | .ok (so, db1) => ((201, some so), db1)
  | .error _ => ((400, none), db)

/-- The full `POST /orders` pipeline: FastAPI parses the body against
`OrderCreate` (schema failure is HTTP 422, before the handler or the store is
reached), then the route handler runs. -/
def fullCreateOrder (db : DB) (raw : OrderCreate) : (Nat × Option StoredOrder) × DB :=
  match OrderCreate.parse raw with
  | .error _ => ((422, none), db)
  | .ok oc => routeCreateOrder db oc

/-! ### Reachable states -/

/-- The write operations the system exposes: product creation and order
creation (with already-parsed payloads, as the services receive them). -/
inductive Op where
  | createProduct (p : ProductCreate)
  | createOrder (o : OrderCreate)

/-- State transition of one operation: product creation always inserts; order
creation inserts only when validation succeeds, and on `ValueError` the store
is left untouched (the error is raised before any write). -/
def step (db : DB) : Op → DB
  | .createProduct p => (ProductService.create_product db p).2
  | .createOrder o =>
    match OrderService.create_order db o with
    | .ok (_, db1) => db1
    | .error _ => db

/-- The state reached by running a sequence of operations from the fresh store. -/
def run (ops : List Op) : DB :=
  ops.foldl step DB.init

/-- The cross-collection invariant: every stored order's `products` list holds
only keys of the product store. -/
def orderRefsValid (db : DB) : Prop :=
  ∀ o ∈ db.orders, ∀ pid ∈ o.products, ∃ p ∈ db.products, p.id = pid

/-- Spec-side product filter predicate, for comparison with `find_products`:
the optional name filter is a case-insensitive substring match against the
stored name, the optional size filter is case-sensitive exact equality, and
provided filters apply in conjunction. -/
def specProductPred (nameF sizeF : Option String) (p : StoredProduct) : Bool :=
  (match nameF with
    | some nf => containsSub (lowerStr nf).data (lowerStr p.name).data
    | none => true)
  && (match sizeF with
    | some sf => p.size == sf
    | none => true)

/-- Spec-side slice `xs[o : o + l]` (Python semantics for a natural offset and
an optional natural limit): drop `o`, then take `l` when a limit is present. -/
def specSlice {α : Type} (xs : List α) (o : Nat) (l : Option Nat) : List α :=
  match l with
  | some l => (xs.drop o).take l
  | none => xs.drop o

end ECom

deriving instance DecidableEq for Except

namespace ECom

/-- A concrete stored product, used by concrete counterexamples/witnesses. -/
def sampleProduct : StoredProduct :=
  { id := "prod_000001", name := "iPhone 14", description := "A16 Bionic",
    price := 1, size := "large" }

/-- A concrete store state holding exactly `sampleProduct`, as reached by one
product creation from the fresh store. -/
def sampleDB : DB :=
  { products := [sampleProduct], orders := [], productCounter := 2,
    orderCounter := 1, clock := 0 }

/-- The iPhone payload of the spec scenario in section 8, as supplied. -/
def iphoneRaw : ProductCreate :=
  { name := "iPhone 14", description := "A16 Bionic", price := 999999/1000,
    size := "large" }

/-- The iPhone payload after schema validation: price rounded to 1000. -/
def iphoneParsed : ProductCreate :=
  { name := "iPhone 14", description := "A16 Bionic", price := 1000,
    size := "large" }

/-- A product id in valid BSON ObjectId format (24 hex characters). -/
def hexId : String := "aaaaaaaaaaaaaaaaaaaaaaaa"

/-- A stored product keyed by an ObjectId-format id (such a key can only be
present if ids were not produced by `generate_id`; it lets an order payload
pass both the ObjectId schema check and the existence check). -/
def hexProduct : StoredProduct :=
  { id := hexId, name := "Widget", description := "W", price := 5, size := "small" }

/-- A store holding exactly `hexProduct`. -/
def hexDB : DB :=
  { products := [hexProduct], orders := [], productCounter := 1,
    orderCounter := 1, clock := 0 }

/-- An order payload referencing `hexProduct`, in valid schema format. -/
def hexOrder : OrderCreate := { user_id := "u1", products := [hexId], total := 5 }

/-! ## Helper lemmas shared between claims -/

theorem paginate_none_zero {α : Type} (xs : List α) : paginate xs none 0 = xs := by
  simp [paginate, List.take_length]

theorem paginate_eq_specSlice {α : Type} (xs : List α) (l : Option Nat) (o : Nat)
    (hl : l ≠ some 0) : paginate xs l o = specSlice xs o l := by
  cases l with
  | none =>
    simp only [paginate, specSlice]
    rw [← List.length_drop, List.take_length]
  | some l =>
    cases l with
    | zero => exact absurd rfl hl
    | succ k =>
      simp only [paginate, specSlice]
      rw [if_neg (by simp), Nat.add_sub_cancel_left]

theorem validate_product_ids_eq_true (db : DB) (ids : List String) :
    ProductService.validate_product_ids db ids = true ↔
      ∀ pid ∈ ids, (db.find_product_by_id pid).isSome = true := by
  simp [ProductService.validate_product_ids, List.all_eq_true]

/-! ## Claims -/

/-- C8: for every store state and every list of identifier strings,
`validate_product_ids` returns `true` iff every id in the list resolves to a
stored product via `find_product_by_id` (in particular it is `true` on the
empty list, where the quantifier is vacuous). -/
theorem claim8_validate_product_ids_iff (db : DB) (ids : List String) :
    ProductService.validate_product_ids db ids = true ↔
      ∀ pid ∈ ids, (db.find_product_by_id pid).isSome = true :=
  validate_product_ids_eq_true db ids

/-- C4: for every store state and every combination of the optional name and
size filters, `find_products` before pagination returns exactly the stored
products satisfying every provided filter in conjunction — name by
case-insensitive substring match, size by exact equality — in insertion
order (it is a `filter` of the insertion-ordered product list). -/
theorem claim4_find_products_filter (db : DB) (nameF sizeF : Option String) :
    db.find_products nameF sizeF none 0 =
      db.products.filter fun p => specProductPred nameF sizeF p := by
  rw [DB.find_products, paginate_none_zero]
  cases nameF with
  | none =>
    cases sizeF with
    | none => simp [DB.filtered_products, specProductPred]
    | some sf => simp [DB.filtered_products, specProductPred]
  | some nf =>
    cases sizeF with
    | none => simp [DB.filtered_products, specProductPred]
    | some sf =>
      simp only [DB.filtered_products, specProductPred, List.filter_filter]
      exact List.filter_congr fun p _ => Bool.and_comm _ _

end ECom

namespace ECom

/-- C2: for every store state and every order-creation payload whose `products`
list contains an identifier absent from the product store, `create_order`
raises the validation `ValueError` (not a not-found error), the route handler
surfaces it as HTTP 400, and the store is returned unchanged — in particular
every subsequent `find_orders_by_user` result for that user is exactly what it
was before the attempt. -/
theorem claim2_invalid_order_rejected (db : DB) (o : OrderCreate) (pid : String)
    (hmem : pid ∈ o.products) (hnone : db.find_product_by_id pid = none) :
    OrderService.create_order db o = .error "One or more products do not exist" ∧
      routeCreateOrder db o = ((400, none), db) ∧
      ∀ limit offset, DB.find_orders_by_user (routeCreateOrder db o).2 o.user_id limit offset =
        db.find_orders_by_user o.user_id limit offset := by
  have hv : ProductService.validate_product_ids db o.products = false := by
    cases h : ProductService.validate_product_ids db o.products with
    | false => rfl
    | true =>
      have := (validate_product_ids_eq_true db o.products).mp h pid hmem
      rw [hnone] at this
      simp at this
  have hc : OrderService.create_order db o = .error "One or more products do not exist" := by
    simp [OrderService.create_order, hv]
  refine ⟨hc, ?_, ?_⟩
  · simp [routeCreateOrder, hc]
  · intro limit offset
    simp [routeCreateOrder, hc]

/-- Witness for C2 at a concrete input: the fresh store and an order paying
for the unknown product `prod_000001`. -/
theorem claim2_witness :
    OrderService.create_order DB.init
        { user_id := "u1", products := ["prod_000001"], total := 5 } =
      .error "One or more products do not exist" ∧
      routeCreateOrder DB.init { user_id := "u1", products := ["prod_000001"], total := 5 } =
        ((400, none), DB.init) ∧
      ∀ limit offset,
        DB.find_orders_by_user
          (routeCreateOrder DB.init
            { user_id := "u1", products := ["prod_000001"], total := 5 }).2
          "u1" limit offset =
        DB.init.find_orders_by_user "u1" limit offset :=
  claim2_invalid_order_rejected DB.init
    { user_id := "u1", products := ["prod_000001"], total := 5 }
    "prod_000001" (by decide) (by decide)

end ECom

namespace ECom

/-- C3 counterexample: with one stored product, `find_products` at
`offset = 0, limit = 0` returns the whole remainder (the Python code treats a
falsy `limit` as absent), while the claimed slice `full[0 : 0 + 0]` is empty.
So the pagination law as claimed fails at `limit = 0`. -/
theorem claim3_counterexample :
    DB.find_products sampleDB none none (some 0) 0 ≠
      specSlice (DB.find_products sampleDB none none none 0) 0 (some 0) := by
  decide

/-- C3 (amended): for every store state, filter set, offset `o` and limit —
provided the limit, when present, is nonzero (the code treats a zero limit as
an absent one) — `find_products` and `find_orders_by_user` return exactly the
slice `full_filtered[o : o + l]` of the unpaginated filtered result: empty
when `o` is past the end, the whole remainder when the limit is absent. -/
theorem claim3_pagination_amended (db : DB) (nameF sizeF : Option String)
    (uid : String) (l : Option Nat) (o : Nat) (hl : l ≠ some 0) :
    db.find_products nameF sizeF l o =
      specSlice (db.find_products nameF sizeF none 0) o l ∧
    db.find_orders_by_user uid l o =
      specSlice (db.find_orders_by_user uid none 0) o l := by
  constructor
  · rw [DB.find_products, DB.find_products, paginate_none_zero]
    exact paginate_eq_specSlice _ _ _ hl
  · simp only [DB.find_orders_by_user, paginate_none_zero]
    exact paginate_eq_specSlice _ _ _ hl

/-- Witness for the amended C3 at a concrete input: one stored product,
`offset = 0`, `limit = 1`. -/
theorem claim3_witness :
    DB.find_products sampleDB none none (some 1) 0 =
      specSlice (DB.find_products sampleDB none none none 0) 0 (some 1) ∧
    DB.find_orders_by_user sampleDB "u1" (some 1) 0 =
      specSlice (DB.find_orders_by_user sampleDB "u1" none 0) 0 (some 1) :=
  claim3_pagination_amended sampleDB none none "u1" (some 1) 0 (by decide)

end ECom

namespace ECom

theorem run_createProducts_ids (ps : List ProductCreate) (db : DB) :
    (List.foldl step db (ps.map Op.createProduct)).products.map (fun p => p.id) =
      db.products.map (fun p => p.id) ++
        (List.range ps.length).map (fun i => "prod_" ++ pad6 (db.productCounter + i)) := by
  induction ps generalizing db with
  | nil => simp
  | cons p ps ih =>
    simp only [List.map_cons, List.foldl_cons, List.length_cons]
    rw [ih]
    simp only [step, ProductService.create_product, DB.insert_product, DB.generate_id,
      beq_self_eq_true, if_true, List.map_append, List.map_cons, List.map_nil,
      List.range_succ_eq_map, List.map_map, List.append_assoc, List.cons_append,
      List.nil_append, Function.comp, Nat.add_zero]
    congr 2
    exact List.map_congr_left fun i _ => by
      simp only [Function.comp_apply]
      congr 2
      omega

/-- C5: for every N and every sequence of N product creations from the fresh
store, the assigned identifiers are exactly `prod_000001 … prod_00000N` in
creation order: the id list is `["prod_" ++ pad6 1, …, "prod_" ++ pad6 N]`,
one fresh consecutive counter value per creation (so values are monotonically
increasing and never reused), 6-digit zero-padded. -/
theorem claim5_product_ids (ps : List ProductCreate) :
    (run (ps.map Op.createProduct)).products.map (fun p => p.id) =
      (List.range ps.length).map (fun i => "prod_" ++ pad6 (i + 1)) := by
  rw [run, run_createProducts_ids]
  simp only [DB.init, List.map_nil, List.nil_append]
  exact List.map_congr_left fun i _ => by rw [Nat.add_comm]

end ECom

namespace ECom

theorem orderRefsValid_step (db : DB) (op : Op) (h : orderRefsValid db) :
    orderRefsValid (step db op) := by
  cases op with
  | createProduct p =>
    intro o ho pid hpid
    simp only [step, ProductService.create_product, DB.insert_product, DB.generate_id,
      beq_self_eq_true, if_true] at ho ⊢
    obtain ⟨q, hq, hqid⟩ := h o ho pid hpid
    exact ⟨q, List.mem_append.mpr (Or.inl hq), hqid⟩
  | createOrder oc =>
    cases hval : ProductService.validate_product_ids db oc.products with
    | false =>
      simp only [step, OrderService.create_order, hval, Bool.not_false, if_true]
      exact h
    | true =>
      simp only [step, OrderService.create_order, hval, Bool.not_true, if_false,
        DB.insert_order, DB.generate_id, beq_self_eq_true, if_true]
      intro o ho pid hpid
      rcases List.mem_append.mp ho with h1 | h2
      · exact h o h1 pid hpid
      · have ho' : o.products = oc.products := by
          simp only [List.mem_singleton] at h2
          rw [h2]
        rw [ho'] at hpid
        have hsome := (validate_product_ids_eq_true db oc.products).mp hval pid hpid
        obtain ⟨q, hq⟩ := Option.isSome_iff_exists.mp hsome
        exact ⟨q, List.mem_of_find?_eq_some hq, by simpa using List.find?_some hq⟩

/-- C1: in every state reachable from the fresh store by any sequence of
product-creation and order-creation operations, every stored order's
`products` list contains only identifiers that are keys of the product store.
Order creation establishes the property at insert time (ids are validated
before the write), product creation only grows the key set, and no update or
delete operation exists, so no step can break it. -/
theorem claim1_order_refs_invariant (ops : List Op) : orderRefsValid (run ops) := by
  rw [run]
  have key : ∀ db, orderRefsValid db → orderRefsValid (List.foldl step db ops) := by
    induction ops with
    | nil => intro db h; exact h
    | cons op ops ih => intro db h; exact ih _ (orderRefsValid_step db op h)
  refine key DB.init ?_
  intro o ho
  simp [DB.init] at ho

end ECom

namespace ECom

theorem insert_order_eq (db : DB) (o : OrderCreate) :
    db.insert_order o =
      (⟨"order_" ++ pad6 db.orderCounter, o.user_id, o.products, o.total, db.clock⟩,
       { db with
          orders := db.orders ++
            [⟨"order_" ++ pad6 db.orderCounter, o.user_id, o.products, o.total, db.clock⟩],
          orderCounter := db.orderCounter + 1, clock := db.clock + 1 }) := rfl

theorem insert_product_eq (db : DB) (p : ProductCreate) :
    db.insert_product p =
      (⟨"prod_" ++ pad6 db.productCounter, p.name, p.description, p.price, p.size⟩,
       { db with
          products := db.products ++
            [⟨"prod_" ++ pad6 db.productCounter, p.name, p.description, p.price, p.size⟩],
          productCounter := db.productCounter + 1 }) := rfl

/-- C6: for every store state (whose next generated order id is fresh, as in
every reachable state) and every order-creation payload all of whose product
ids are present in the product store, `create_order` succeeds; the created
order is then retrievable by its id via the get-order-by-id operation and
appears in the `list_orders_by_user` result for its `user_id`. -/
theorem claim6_valid_order_created (db : DB) (o : OrderCreate)
    (hval : ∀ pid ∈ o.products, (db.find_product_by_id pid).isSome = true)
    (hfresh : OrderService.get_order_by_id db ("order_" ++ pad6 db.orderCounter) = none) :
    ∃ so db1, OrderService.create_order db o = .ok (so, db1) ∧
      OrderService.get_order_by_id db1 so.id = some so ∧
      so ∈ OrderService.get_orders_by_user db1 o.user_id none 0 := by
  have hv : ProductService.validate_product_ids db o.products = true :=
    (validate_product_ids_eq_true db o.products).mpr hval
  refine ⟨(db.insert_order o).1, (db.insert_order o).2, ?_, ?_, ?_⟩
  · simp [OrderService.create_order, hv]
  · rw [insert_order_eq]
    simp only [OrderService.get_order_by_id] at hfresh ⊢
    rw [List.find?_append, hfresh, Option.none_or]
    simp
  · rw [insert_order_eq]
    simp only [OrderService.get_orders_by_user, DB.find_orders_by_user, paginate_none_zero]
    rw [List.filter_append]
    refine List.mem_append.mpr (Or.inr ?_)
    simp

/-- Witness for C6 at a concrete input: the one-product store and an order
for `prod_000001` by user `u1`. -/
theorem claim6_witness :
    ∃ so db1,
      OrderService.create_order sampleDB
          { user_id := "u1", products := ["prod_000001"], total := 5 } = .ok (so, db1) ∧
      OrderService.get_order_by_id db1 so.id = some so ∧
      so ∈ OrderService.get_orders_by_user db1 "u1" none 0 :=
  claim6_valid_order_created sampleDB
    { user_id := "u1", products := ["prod_000001"], total := 5 }
    (by decide) (by decide)

end ECom

namespace ECom

theorem parse_ok_product (raw pc : ProductCreate)
    (h : ProductCreate.parse raw = .ok pc) :
    pc = { raw with price := round2 raw.price } := by
  rw [ProductCreate.parse] at h
  split_ifs at h
  cases h
  rfl

theorem parse_ok_order (rawo oc : OrderCreate)
    (h : OrderCreate.parse rawo = .ok oc) :
    oc = { rawo with total := round2 rawo.total } := by
  rw [OrderCreate.parse] at h
  split_ifs at h
  all_goals split at h
  all_goals try (cases h)
  all_goals rfl

/-- C7: round-trip. For every store state (with fresh next ids, as in every
reachable state): a product payload that passes schema validation is stored
and returned with every supplied field unchanged except `price`, which is the
input rounded to 2 decimals, and `get_product_by_id` on the assigned id
returns the very record from the creation response; likewise an order payload
that passes schema validation and references only stored products is created
with `user_id`, `products` unchanged and `total` rounded, and is returned
unchanged by a subsequent get-by-id. -/
theorem claim7_roundtrip (db : DB) (raw pc : ProductCreate) (rawo oc : OrderCreate)
    (hparse : ProductCreate.parse raw = .ok pc)
    (hpfresh : db.find_product_by_id ("prod_" ++ pad6 db.productCounter) = none)
    (hoparse : OrderCreate.parse rawo = .ok oc)
    (hids : ∀ pid ∈ oc.products, (db.find_product_by_id pid).isSome = true)
    (hofresh : OrderService.get_order_by_id db ("order_" ++ pad6 db.orderCounter) = none) :
    (ProductService.get_product_by_id (ProductService.create_product db pc).2
        (ProductService.create_product db pc).1.id =
          some (ProductService.create_product db pc).1 ∧
      (ProductService.create_product db pc).1.name = raw.name ∧
      (ProductService.create_product db pc).1.description = raw.description ∧
      (ProductService.create_product db pc).1.price = round2 raw.price ∧
      (ProductService.create_product db pc).1.size = raw.size) ∧
    ∃ so db1, OrderService.create_order db oc = .ok (so, db1) ∧
      OrderService.get_order_by_id db1 so.id = some so ∧
      so.user_id = rawo.user_id ∧ so.products = rawo.products ∧
      so.total = round2 rawo.total := by
  have hpc := parse_ok_product raw pc hparse
  have hoc := parse_ok_order rawo oc hoparse
  constructor
  · subst hpc
    simp only [ProductService.create_product, insert_product_eq,
      ProductService.get_product_by_id, DB.find_product_by_id] at hpfresh ⊢
    refine ⟨?_, trivial, trivial, trivial, trivial⟩
    rw [List.find?_append, hpfresh, Option.none_or]
    simp
  · have hv : ProductService.validate_product_ids db oc.products = true :=
      (validate_product_ids_eq_true db oc.products).mpr hids
    refine ⟨(db.insert_order oc).1, (db.insert_order oc).2, ?_, ?_, ?_, ?_, ?_⟩
    · simp [OrderService.create_order, hv]
    · rw [insert_order_eq]
      simp only [OrderService.get_order_by_id] at hofresh ⊢
      rw [List.find?_append, hofresh, Option.none_or]
      simp
    · rw [insert_order_eq, hoc]
    · rw [insert_order_eq, hoc]
    · rw [insert_order_eq, hoc]

/-- Witness for C7 at concrete inputs: the spec's iPhone payload on a store
whose one product is keyed by an ObjectId-format id, plus an order for it. -/
theorem claim7_witness :
    (ProductService.get_product_by_id (ProductService.create_product hexDB iphoneParsed).2
        (ProductService.create_product hexDB iphoneParsed).1.id =
          some (ProductService.create_product hexDB iphoneParsed).1 ∧
      (ProductService.create_product hexDB iphoneParsed).1.name = iphoneRaw.name ∧
      (ProductService.create_product hexDB iphoneParsed).1.description =
        iphoneRaw.description ∧
      (ProductService.create_product hexDB iphoneParsed).1.price = round2 iphoneRaw.price ∧
      (ProductService.create_product hexDB iphoneParsed).1.size = iphoneRaw.size) ∧
    ∃ so db1, OrderService.create_order hexDB hexOrder = .ok (so, db1) ∧
      OrderService.get_order_by_id db1 so.id = some so ∧
      so.user_id = hexOrder.user_id ∧ so.products = hexOrder.products ∧
      so.total = round2 hexOrder.total :=
  claim7_roundtrip hexDB iphoneRaw iphoneParsed hexOrder hexOrder
    (by
      norm_num [ProductCreate.parse, iphoneRaw, iphoneParsed, round2, roundHalfEven,
        Rat.floor_def']
      decide)
    (by decide)
    (by
      norm_num [OrderCreate.parse, hexOrder, hexId, round2, roundHalfEven,
        Rat.floor_def']
      decide)
    (by decide)
    (by decide)

end ECom

namespace ECom

/-- C10: for every store state and every order-creation payload containing an
element that is not a string in valid BSON ObjectId format, the `OrderCreate`
schema rejects the payload with a validation error before product existence is
ever checked against the store (the store is returned untouched and never
consulted: the parse takes no store argument); and every identifier in the
store's own generated format `prod_NNNNNN` is rejected this way, for every
counter value. -/
theorem claim10_schema_rejects (db : DB) (raw : OrderCreate)
    (hbad : ∃ pid ∈ raw.products, objectIdIsValid pid = false) :
    (∃ e, OrderCreate.parse raw = .error e) ∧
      fullCreateOrder db raw = ((422, none), db) ∧
      ∀ n, objectIdIsValid ("prod_" ++ pad6 n) = false := by
  have hfind : (raw.products.find? fun pid => !objectIdIsValid pid).isSome = true := by
    rw [List.find?_isSome]
    obtain ⟨pid, hmem, hval⟩ := hbad
    exact ⟨pid, hmem, by simp [hval]⟩
  obtain ⟨bad, hbadEq⟩ := Option.isSome_iff_exists.mp hfind
  have herr : ∃ e, OrderCreate.parse raw = .error e := by
    rw [OrderCreate.parse]
    split_ifs
    all_goals try exact ⟨_, rfl⟩
    all_goals rw [hbadEq]
    all_goals exact ⟨_, rfl⟩
  refine ⟨herr, ?_, ?_⟩
  · obtain ⟨e, he⟩ := herr
    rw [fullCreateOrder, he]
  · intro n
    have hall : ("prod_" ++ pad6 n).data.all isHexChar = false := by
      rw [String.data_append, List.all_append]
      have hpre : ("prod_".data.all isHexChar) = false := by decide
      rw [hpre, Bool.false_and]
    simp only [objectIdIsValid, hall, Bool.and_false]

/-- Witness for C10 at a concrete input: an order payload referencing
`prod_000001`, the store's own first generated product id. -/
theorem claim10_witness :
    (∃ e, OrderCreate.parse
        { user_id := "u1", products := ["prod_000001"], total := 5 } = .error e) ∧
      fullCreateOrder DB.init
          { user_id := "u1", products := ["prod_000001"], total := 5 } =
        ((422, none), DB.init) ∧
      ∀ n, objectIdIsValid ("prod_" ++ pad6 n) = false :=
  claim10_schema_rejects DB.init
    { user_id := "u1", products := ["prod_000001"], total := 5 }
    ⟨"prod_000001", by decide, by decide⟩

end ECom

namespace ECom

/-- C9: evaluation of the spec scenario against the code. The product payload
`{"name":"iPhone 14","description":"A16 Bionic","price":999.999,"size":"large"}`
passes schema validation with `price` rounded to `1000.0`, and creation from
the fresh store assigns it id `prod_000001` — those parts hold. But the
scenario's next step diverges: creating an order whose `products` list holds
that assigned id (with `total = 1000.0`) does not succeed; the `OrderCreate`
schema rejects `prod_000001` as an invalid BSON ObjectId (HTTP 422) before the
store is consulted, so no order (and no `created_at` stamp) is ever produced.
The order-id format generated by the in-memory store and the leftover
MongoDB ObjectId validator contradict each other: the code defeats its own
documented scenario. -/
theorem claim9_scenario_vs_code :
    ProductCreate.parse iphoneRaw = .ok iphoneParsed ∧
    (ProductService.create_product DB.init iphoneParsed).1.price = 1000 ∧
    (ProductService.create_product DB.init iphoneParsed).1.id = "prod_000001" ∧
    fullCreateOrder (ProductService.create_product DB.init iphoneParsed).2
        { user_id := "u1", products := ["prod_000001"], total := 1000 } =
      ((422, none), (ProductService.create_product DB.init iphoneParsed).2) := by
  refine ⟨?_, by decide, by decide, by decide⟩
  norm_num [ProductCreate.parse, iphoneRaw, iphoneParsed, round2, roundHalfEven,
    Rat.floor_def']
  decide

end ECom
